import Mathlib

/-!
Shallow embedding of the local test-node lifecycle and test-isolation core of
the `mcp-anvil-tools` server, with proofs about its specified behaviour.

Embedded sources:
- `src/anvil/manager.ts`: `AnvilManager` (`initialize`, `start` with its
  stdout/stderr/exit handlers, `waitForStartup`, `stop`, `stopAll`) and
  `PortAllocator` (`allocate`, `release`, `reserve`);
- `src/state/manager.ts`: the `anvil_instances` rows of the durable store
  (`saveAnvilInstance`, `updateAnvilStatus`, `listAnvilInstances`);
- `src/tools/execution.ts`: the snapshot registry (`createSnapshot`,
  `revertSnapshot`) and impersonation tracking (`impersonate`, the
  impersonation branches of `sendTx`).

JavaScript `Set` and `Map` values are modelled as insertion-ordered lists and
association lists (`setAdd` / `setDelete` / `mapGet` / `mapSet` mirror
`Set.add` / `Set.delete` / `Map.get` / `Map.set`).  Results of asynchronous
I/O (the OS bind probe of `isPortFree`, the liveness poll of
`waitForStartup`, PID liveness of `checkProcessRunning`, node-issued snapshot
tokens and block data) enter the model as explicit oracle parameters.
-/

namespace AnvilTools

/-- `Set.add` of a JavaScript `Set`: appends unless already present. -/
def setAdd {α : Type} [DecidableEq α] (s : List α) (x : α) : List α :=
  if x ∈ s then s else s ++ [x]

/-- `Set.delete` of a JavaScript `Set`: removes the entry if present. -/
def setDelete {α : Type} [DecidableEq α] (s : List α) (x : α) : List α :=
  s.erase x

/-- `Set.has` of a JavaScript `Set`. -/
def setHas {α : Type} [DecidableEq α] (s : List α) (x : α) : Bool :=
  decide (x ∈ s)

/-- `Map.get` of a JavaScript `Map`. -/
def mapGet {α β : Type} [DecidableEq α] (m : List (α × β)) (k : α) : Option β :=
  (m.find? (fun kv => decide (kv.1 = k))).map (fun kv => kv.2)

/-- `Map.set` of a JavaScript `Map`: replaces in place if the key exists,
otherwise appends. -/
def mapSet {α β : Type} [DecidableEq α] (m : List (α × β)) (k : α) (v : β) :
    List (α × β) :=
  match m with
  | [] => [(k, v)]
  | (a, b) :: rest =>
    if a = k then (k, v) :: rest else (a, b) :: mapSet rest k v

/-! Output redaction (`src/anvil/manager.ts`, stdout data handler).
The source applies `output.replace(/0x[a-fA-F0-9]{64}/g, "0x[REDACTED]")`
to every captured stdout chunk before logging it. -/

/-- One character of the `[a-fA-F0-9]` class. -/
def isHexChar (c : Char) : Bool :=
  ('0' ≤ c && c ≤ '9') || ('a' ≤ c && c ≤ 'f') || ('A' ≤ c && c ≤ 'F')

/-- The scanning loop of the global replacement, structurally recursive on a
fuel bound: every step consumes at least one character, so fuel equal to the
input length makes the bound inexhaustible. -/
def redactGo : Nat → List Char → List Char
  | 0, l => l
  | _ + 1, [] => []
  | fuel + 1, '0' :: 'x' :: rest =>
    if (rest.take 64).length = 64 && (rest.take 64).all isHexChar then
      ("0x[REDACTED]").data ++ redactGo fuel (rest.drop 64)
    else
      '0' :: redactGo fuel ('x' :: rest)
  | fuel + 1, c :: rest => c :: redactGo fuel rest

/-- Global replacement of `/0x[a-fA-F0-9]{64}/` by `0x[REDACTED]`:
leftmost-first, non-overlapping, resuming after each match, exactly as the
JavaScript `String.replace` with a `g`-flagged regex does. -/
def redactChars (l : List Char) : List Char :=
  redactGo l.length l

/-- The line the stdout data handler hands to the log sink:
`console.debug` of `[Anvil id] redactedOutput`. -/
def stdoutLogLine (id chunk : String) : String :=
  "[Anvil " ++ id ++ "] " ++ String.mk (redactChars chunk.data)

/-- The line the stderr data handler hands to the log sink:
`console.error` of `[Anvil id] data.toString()` — the chunk passes through
with no redaction applied. -/
def stderrLogLine (id chunk : String) : String :=
  "[Anvil " ++ id ++ "] " ++ chunk

/-! Port allocator (`src/anvil/manager.ts`, class `PortAllocator`). -/

/-- The two `Set<number>` fields of `PortAllocator`. -/
structure PortAllocator where
  available : List Nat
  allocated : List Nat
deriving Repr, DecidableEq

/-- The `PortAllocator` constructor: every port of the inclusive range
`[portStart, portEnd]` is initially available. -/
def mkPortAllocator (portStart portEnd : Nat) : PortAllocator :=
  { available := List.range' portStart (portEnd + 1 - portStart)
    allocated := [] }

/-- `PortAllocator.allocate`: scans `available` in insertion order and commits
the first port whose OS bind probe (`isPortFree`, modelled by the `probe`
oracle) succeeds; returns `none` when no candidate passes. -/
def PortAllocator.allocate (a : PortAllocator) (probe : Nat → Bool) :
    Option Nat × PortAllocator :=
  match a.available.find? probe with
  | some p =>
    (some p, { available := setDelete a.available p
               allocated := setAdd a.allocated p })
  | none => (none, a)

/-- `PortAllocator.release`: unconditionally moves a port from `allocated`
back to `available`; no membership or range check is performed. -/
def PortAllocator.release (a : PortAllocator) (p : Nat) : PortAllocator :=
  { available := setAdd a.available p
    allocated := setDelete a.allocated p }

/-- `PortAllocator.reserve`: marks a port allocated.  Present in the source
but never called from anywhere. -/
def PortAllocator.reserve (a : PortAllocator) (p : Nat) : PortAllocator :=
  { available := setDelete a.available p
    allocated := setAdd a.allocated p }

/-! Node process supervisor (`src/anvil/manager.ts`, class `AnvilManager`),
with the durable `anvil_instances` rows of `src/state/manager.ts`. -/

/-- The lifecycle status union of `AnvilInstance` / `AnvilInstanceInfo`
(`src/anvil/types.ts`). -/
inductive Status where
  | starting
  | running
  | stopped
  | orphaned
  | error
deriving Repr, DecidableEq

/-- An instance is *active* when its status is none of the terminal ones
(`stopped`, `orphaned`, `error`), following the spec's wording. -/
def Status.isActive : Status → Bool
  | .stopped => false
  | .orphaned => false
  | .error => false
  | _ => true

/-- The in-memory `AnvilInstance` record.  The `ChildProcess` handle is
modelled by its presence (`hasProcess`) plus the numeric `pid`; the ISO
timestamp is modelled as an abstract clock value. -/
structure AnvilInstance where
  id : String
  port : Nat
  status : Status
  hasProcess : Bool
  forkedFrom : Option String
  chainId : Nat
  startedAt : Nat
  pid : Option Nat
deriving Repr, DecidableEq

/-- One durable `anvil_instances` row (`AnvilInstanceInfo` as stored by
`src/state/manager.ts`; `stopped_at` is the termination timestamp column). -/
structure AnvilInstanceRow where
  id : String
  port : Nat
  status : Status
  forkedFrom : Option String
  chainId : Option Nat
  startedAt : Nat
  stoppedAt : Option Nat
  pid : Option Nat
deriving Repr, DecidableEq

/-- `StateManager.saveAnvilInstance`: a plain SQL `INSERT`. -/
def saveAnvilInstance (db : List AnvilInstanceRow) (row : AnvilInstanceRow) :
    List AnvilInstanceRow :=
  db ++ [row]

/-- `StateManager.updateAnvilStatus`: `UPDATE anvil_instances SET status = ?,
stopped_at = ? WHERE id = ?`. -/
def updateAnvilStatus (db : List AnvilInstanceRow) (id : String)
    (status : Status) (stoppedAt : Option Nat) : List AnvilInstanceRow :=
  db.map (fun r =>
    if r.id = id then { r with status := status, stoppedAt := stoppedAt }
    else r)

/-- `StateManager.listAnvilInstances` with a status filter (`SELECT * FROM
anvil_instances WHERE status = ?`; the `ORDER BY` clause is irrelevant to the
properties proved here and is not modelled). -/
def listAnvilInstances (db : List AnvilInstanceRow) (status : Status) :
    List AnvilInstanceRow :=
  db.filter (fun r => decide (r.status = status))

/-- The in-memory state of one `AnvilManager`: the `instances` map, its
`PortAllocator`, and the durable store rows it reads and writes. -/
structure ManagerState where
  instances : List (String × AnvilInstance)
  alloc : PortAllocator
  db : List AnvilInstanceRow
deriving Repr, DecidableEq

/-- A fresh `AnvilManager` over the configured port range
(`config.anvilPortStart` / `config.anvilPortEnd`). -/
def mkManager (portStart portEnd : Nat) : ManagerState :=
  { instances := [], alloc := mkPortAllocator portStart portEnd, db := [] }

/-- The errors `AnvilManager` throws (`AnvilError` with the corresponding
message: no available ports, startup timeout, unknown instance id). -/
inductive AnvilErr where
  | noAvailablePorts
  | startupTimeout (id : String)
  | notFound (id : String)
deriving Repr, DecidableEq

/-- `StartAnvilOptions` (`src/anvil/types.ts`). -/
structure StartOptions where
  forkUrl : Option String := none
  forkBlockNumber : Option Nat := none
  chainId : Option Nat := none
  port : Option Nat := none
deriving Repr, DecidableEq

/-- JavaScript `x || d` on an optional number: `0` is falsy, so `some 0`
falls back to the default just like `none`. -/
def orFalsy (x : Option Nat) (d : Nat) : Nat :=
  match x with
  | some v => if v ≠ 0 then v else d
  | none => d

/-- The port resolution of `AnvilManager.start`:
`options.port || (await this.portAllocator.allocate())`.  With a truthy
explicit override the allocator is not consulted at all (in particular,
`reserve` is never invoked on the override port). -/
def resolvePort (opts : StartOptions) (probe : Nat → Bool)
    (a : PortAllocator) : Option Nat × PortAllocator :=
  match opts.port with
  | some p => if p ≠ 0 then (some p, a) else a.allocate probe
  | none => a.allocate probe

/-- `AnvilManager.waitForStartup`: polls the node's JSON-RPC endpoint every
100 ms until `eth_blockNumber` answers with a `result` field or the 10 s
timeout elapses.  The poll outcomes are the oracle `rpcReady`; `maxPolls`
bounds the number of attempts the timeout admits.  Returns whether the
instance reached `running`; on `false` the source throws its timeout
`AnvilError` without touching the instance's status. -/
def waitForStartup (rpcReady : Nat → Bool) (maxPolls : Nat) : Bool :=
  (List.range maxPolls).any rpcReady

/-- `AnvilManager.start`: resolves a port, spawns the process (status
`starting`), registers the instance in the in-memory map, persists the
`starting` row, then blocks in `waitForStartup`.  On poll success the status
becomes `running`; on timeout the `AnvilError` propagates and the instance
record is left exactly as registered.  (The stdout data handler may also set
`running` upon a `Listening on` line, but no code path ever assigns the
`error` status.)  Always returns the post-call manager state together with
the call's outcome. -/
def start (st : ManagerState) (defaultChainId : Nat) (id : String)
    (pid : Option Nat) (opts : StartOptions) (probe : Nat → Bool)
    (rpcReady : Nat → Bool) (maxPolls : Nat) (now : Nat) :
    ManagerState × Except AnvilErr AnvilInstance :=
  match resolvePort opts probe st.alloc with
  | (none, _) => (st, Except.error AnvilErr.noAvailablePorts)
  | (some port, alloc1) =>
    let inst : AnvilInstance :=
      { id := id, port := port, status := Status.starting, hasProcess := true
        forkedFrom := opts.forkUrl, chainId := orFalsy opts.chainId defaultChainId
        startedAt := now, pid := pid }
    let row : AnvilInstanceRow :=
      { id := id, port := port, status := Status.starting
        forkedFrom := opts.forkUrl
        chainId := some (orFalsy opts.chainId defaultChainId)
        startedAt := now, stoppedAt := none, pid := pid }
    let st1 : ManagerState :=
      { instances := mapSet st.instances id inst
        alloc := alloc1
        db := saveAnvilInstance st.db row }
    if waitForStartup rpcReady maxPolls then
      let inst2 := { inst with status := Status.running }
      ({ st1 with instances := mapSet st1.instances id inst2 }, Except.ok inst2)
    else
      (st1, Except.error (AnvilErr.startupTimeout id))

/-- The `process.on("exit", ...)` handler registered by `start`: sets the
instance's status to `stopped`, releases the captured port back to the
allocator, and persists the status change with a termination timestamp. -/
def onProcessExit (st : ManagerState) (id : String) (port : Nat) (now : Nat) :
    ManagerState :=
  { instances :=
      match mapGet st.instances id with
      | some inst => mapSet st.instances id { inst with status := Status.stopped }
      | none => st.instances
    alloc := st.alloc.release port
    db := updateAnvilStatus st.db id Status.stopped (some now) }

/-- `AnvilManager.stop`: throws `NotFound` for an unknown id; otherwise sends
SIGTERM when a process handle exists (the returned flag records whether a
signal was sent), marks the instance `stopped` and persists the change. -/
def stop (st : ManagerState) (id : String) (now : Nat) :
    Except AnvilErr (ManagerState × Bool) :=
  match mapGet st.instances id with
  | none => Except.error (AnvilErr.notFound id)
  | some inst =>
    Except.ok
      ({ st with
         instances := mapSet st.instances id { inst with status := Status.stopped }
         db := updateAnvilStatus st.db id Status.stopped (some now) },
       inst.hasProcess)

/-- The loop body of `AnvilManager.stopAll` over the entries of the
in-memory map: instances with a process handle and a status other than
`orphaned` are stopped (collecting the signalled id); the rest are skipped
with a warning.  An error thrown by `stop` aborts the iteration, as an
awaited rejection would. -/
def stopAllGo (now : Nat) :
    List (String × AnvilInstance) → ManagerState → List String →
    Except AnvilErr (ManagerState × List String)
  | [], st, sig => Except.ok (st, sig)
  | kv :: rest, st, sig =>
    if kv.2.hasProcess = true ∧ kv.2.status ≠ Status.orphaned then
      match stop st kv.1 now with
      | Except.ok (st1, _) => stopAllGo now rest st1 (sig ++ [kv.1])
      | Except.error e => Except.error e
    else
      stopAllGo now rest st sig

/-- `AnvilManager.stopAll`: iterates all in-memory instances; the second
component lists the ids actually signalled. -/
def stopAll (st : ManagerState) (now : Nat) :
    Except AnvilErr (ManagerState × List String) :=
  stopAllGo now st.instances st []

/-- `AnvilManager.checkProcessRunning`: `process.kill(pid, 0)` succeeding —
an oracle, since it queries the OS. -/
def checkProcessRunning (alive : Nat → Bool) (pid : Nat) : Bool :=
  alive pid

/-- The per-record body of `AnvilManager.initialize`: computes
`isRunning = dbInstance.pid && checkProcessRunning(pid)`, then marks the
record `orphaned` with a termination timestamp in *both* branches (they
differ only in the warning text logged). -/
def reconcileRow (alive : Nat → Bool) (now : Nat) (r : AnvilInstanceRow) :
    AnvilInstanceRow :=
  let isRunning :=
    match r.pid with
    | some p => checkProcessRunning alive p
    | none => false
  if !isRunning then
    { r with status := Status.orphaned, stoppedAt := some now }
  else
    { r with status := Status.orphaned, stoppedAt := some now }

/-- `AnvilManager.initialize` (the startup reconciler): loads the durable
rows whose status is `running` and updates each one via `reconcileRow`.  It
never spawns, signals or kills any process — the second component lists the
PIDs signalled, and is empty by construction because the source contains no
such call — and it never touches the in-memory instance map. -/
def reconcileStartup (st : ManagerState) (alive : Nat → Bool) (now : Nat) :
    ManagerState × List Nat :=
  ({ st with
     db := st.db.map (fun r =>
       if r.status = Status.running then reconcileRow alive now r else r) },
   [])

/-! Snapshot registry (`src/tools/execution.ts`): the module-level
`snapshots` map and `consumedSnapshots` set shared by `createSnapshot` and
`revertSnapshot`. -/

/-- The `SnapshotMetadata` record kept in the registry. -/
structure SnapshotMetadata where
  snapshotId : String
  name : Option String
  blockNumber : Nat
  blockHash : String
  timestamp : Nat
  created : Nat
deriving Repr, DecidableEq

/-- The registry state: `snapshots` holds entries under both names and
node-issued tokens; `consumedSnapshots` holds tokens already reverted to. -/
structure SnapshotRegistry where
  snapshots : List (String × SnapshotMetadata)
  consumedSnapshots : List String
deriving Repr, DecidableEq

/-- The errors the snapshot tools throw (`Error` with the corresponding
message text). -/
inductive ExecErr where
  | duplicateName (n : String)
  | snapshotNotFound (id : String)
deriving Repr, DecidableEq

/-- `createSnapshot`: the node has already issued the opaque token
`snapshotId` (via `evm_snapshot`, falling back to `anvil_snapshot`) and
reported the latest block.  If a name is supplied and already registered the
call throws (`DuplicateName`, the registry untouched); otherwise the record
is stored under the name (when present) and always under the token. -/
def createSnapshot (st : SnapshotRegistry) (name : Option String)
    (snapshotId : String) (blockNumber : Nat) (blockHash : String)
    (timestamp created : Nat) :
    Except ExecErr (SnapshotRegistry × SnapshotMetadata) :=
  let snap : SnapshotMetadata :=
    { snapshotId := snapshotId, name := name, blockNumber := blockNumber
      blockHash := blockHash, timestamp := timestamp, created := created }
  match name with
  | some n =>
    if (mapGet st.snapshots n).isSome then
      Except.error (ExecErr.duplicateName n)
    else
      Except.ok
        ({ st with snapshots := mapSet (mapSet st.snapshots n snap) snapshotId snap },
         snap)
  | none =>
    Except.ok ({ st with snapshots := mapSet st.snapshots snapshotId snap }, snap)

/-- The resolution step of `revertSnapshot`: a registry lookup of the input
resolves a stored entry to its token; otherwise the input is treated as a
raw token. -/
def resolveSnapshotId (st : SnapshotRegistry) (input : String) : String :=
  match mapGet st.snapshots input with
  | some stored => stored.snapshotId
  | none => input

/-- What `revertSnapshot` reports on success: the resolved token, whether the
already-consumed warning was surfaced, the node's own revert verdict and the
post-revert block data. -/
structure RevertOutcome where
  snapshotId : String
  possiblyInvalidated : Bool
  reverted : Bool
  blockNumber : Nat
  blockHash : String
  timestamp : Nat
deriving Repr, DecidableEq

/-- `revertSnapshot`: resolves the input, surfaces the already-consumed
warning when the token is in `consumedSnapshots`, throws (`NotFound`) when
the resolved token has no registry entry, otherwise invokes the node's
revert (its verdict is the oracle `nodeReverted`), marks the token consumed
and reports the node's new latest block. -/
def revertSnapshot (st : SnapshotRegistry) (input : String)
    (nodeReverted : Bool) (blockNumber : Nat) (blockHash : String)
    (timestamp : Nat) :
    Except ExecErr (SnapshotRegistry × RevertOutcome) :=
  let snapshotId := resolveSnapshotId st input
  let warned := setHas st.consumedSnapshots snapshotId
  if (mapGet st.snapshots snapshotId).isNone then
    Except.error (ExecErr.snapshotNotFound input)
  else
    Except.ok
      ({ st with consumedSnapshots := setAdd st.consumedSnapshots snapshotId },
       { snapshotId := snapshotId, possiblyInvalidated := warned
         reverted := nodeReverted, blockNumber := blockNumber
         blockHash := blockHash, timestamp := timestamp })

/-! Impersonation (`src/tools/execution.ts`): the module-level
`impersonatedAddresses` set, the `impersonate` tool, and the impersonation
branches of `sendTx`.  The per-node impersonation state that Anvil itself
keeps (toggled by `anvil_impersonateAccount` /
`anvil_stopImpersonatingAccount` against one RPC endpoint) is modelled as a
set of addresses per RPC URL. -/

/-- ASCII lowercasing of one character, as JavaScript's
`String.prototype.toLowerCase` acts on the `0x`-hex-address alphabet the
impersonation tools receive. -/
def lowerChar (c : Char) : Char :=
  if 'A' ≤ c ∧ c ≤ 'Z' then Char.ofNat (c.toNat + 32) else c

/-- `address.toLowerCase()` of the source. -/
def lowercase (s : String) : String :=
  String.mk (s.data.map lowerChar)

/-- The process-wide impersonation picture: the tracker set of the source
(`impersonatedAddresses`, which stores lowercased addresses and is *not*
keyed by instance), next to the node-side set of each Anvil instance,
keyed by its RPC URL. -/
structure ImpersonationState where
  impersonatedAddresses : List String
  nodeImpersonated : List (String × List String)
deriving Repr, DecidableEq

/-- Effect of `anvil_impersonateAccount(addr)` sent to the node at `rpc`. -/
def nodeStart (st : ImpersonationState) (rpc addr : String) :
    ImpersonationState :=
  { st with
    nodeImpersonated :=
      mapSet st.nodeImpersonated rpc
        (setAdd ((mapGet st.nodeImpersonated rpc).getD []) addr) }

/-- Effect of `anvil_stopImpersonatingAccount(addr)` sent to the node at
`rpc`. -/
def nodeStop (st : ImpersonationState) (rpc addr : String) :
    ImpersonationState :=
  { st with
    nodeImpersonated :=
      mapSet st.nodeImpersonated rpc
        (setDelete ((mapGet st.nodeImpersonated rpc).getD []) addr) }

/-- Whether the node at `rpc` currently impersonates `addr`. -/
def nodeActive (st : ImpersonationState) (rpc addr : String) : Bool :=
  setHas ((mapGet st.nodeImpersonated rpc).getD []) addr

/-- The result shape of the `impersonate` tool (the optional balance report
is unrelated to the tracked state and not modelled). -/
structure ImpersonateOutput where
  success : Bool
  address : String
  active : Bool
deriving Repr, DecidableEq

/-- The `impersonate` tool against an Anvil RPC (`checkIsAnvil` has already
passed; on non-Anvil endpoints the call throws before touching any state).
Stopping sends the node de-impersonation and deletes the lowercased address
from the global tracker; starting sends the node impersonation and adds the
lowercased address.  The `rpc` argument selects only which node is spoken
to — the tracker update ignores it. -/
def impersonate (st : ImpersonationState) (rpc address : String)
    (stopImpersonating : Bool) : ImpersonationState × ImpersonateOutput :=
  if stopImpersonating then
    (let st1 := nodeStop st rpc address
     { st1 with
       impersonatedAddresses :=
         setDelete st1.impersonatedAddresses (lowercase address) },
     { success := true, address := address, active := false })
  else
    (let st1 := nodeStart st rpc address
     { st1 with
       impersonatedAddresses :=
         setAdd st1.impersonatedAddresses (lowercase address) },
     { success := true, address := address, active := true })

/-- The node-facing impersonation calls `sendTx` issues, in order. -/
inductive NodeAction where
  | impersonateAccount (rpc addr : String)
  | stopImpersonatingAccount (rpc addr : String)
deriving Repr, DecidableEq

/-- The impersonation behaviour of `sendTx` on an Anvil RPC: with a
`privateKey` the key signs and no impersonation happens; with `from` and no
`privateKey` the source sends `anvil_impersonateAccount(from)` before the
transaction and `anvil_stopImpersonatingAccount(from)` after the receipt,
unconditionally; with neither it uses the node's first unlocked account.
No branch reads or writes the `impersonatedAddresses` tracker. -/
def sendTxImpersonation (st : ImpersonationState) (rpc : String)
    (fromAddr : Option String) (privateKey : Option String) :
    ImpersonationState × List NodeAction :=
  match privateKey, fromAddr with
  | some _, _ => (st, [])
  | none, some a =>
    (nodeStop (nodeStart st rpc a) rpc a,
     [NodeAction.impersonateAccount rpc a,
      NodeAction.stopImpersonatingAccount rpc a])
  | none, none => (st, [])

/-- Decidable equality of `Except` results, used to evaluate concrete call
outcomes. -/
instance {ε α : Type} [DecidableEq ε] [DecidableEq α] :
    DecidableEq (Except ε α)
  | Except.error a, Except.error b =>
    if h : a = b then Decidable.isTrue (h ▸ rfl)
    else Decidable.isFalse (fun hh => h (by cases hh; rfl))
  | Except.error _, Except.ok _ =>
    Decidable.isFalse (fun hh => Except.noConfusion hh)
  | Except.ok _, Except.error _ =>
    Decidable.isFalse (fun hh => Except.noConfusion hh)
  | Except.ok a, Except.ok b =>
    if h : a = b then Decidable.isTrue (h ▸ rfl)
    else Decidable.isFalse (fun hh => h (by cases hh; rfl))

/-! Helper lemmas about the collection primitives. -/

theorem setAdd_mem {α : Type} [DecidableEq α] (s : List α) (x : α) :
    x ∈ setAdd s x := by
  unfold setAdd
  by_cases h : x ∈ s
  · simp [h]
  · simp [h]

theorem setAdd_nodup {α : Type} [DecidableEq α] {s : List α} (h : s.Nodup)
    (x : α) : (setAdd s x).Nodup := by
  unfold setAdd
  by_cases hx : x ∈ s
  · simpa [hx]
  · simp [hx, List.nodup_append, h]

theorem setAdd_idem {α : Type} [DecidableEq α] (s : List α) (x : α) :
    setAdd (setAdd s x) x = setAdd s x := by
  unfold setAdd
  by_cases h : x ∈ s
  · simp [h]
  · simp [h]

theorem setDelete_not_mem {α : Type} [DecidableEq α] {s : List α}
    (h : s.Nodup) (x : α) : x ∉ setDelete s x := by
  unfold setDelete
  intro hx
  exact (h.mem_erase_iff.mp hx).1 rfl

theorem setDelete_of_not_mem {α : Type} [DecidableEq α] {s : List α} {x : α}
    (h : x ∉ s) : setDelete s x = s :=
  List.erase_of_not_mem h

theorem mapGet_nil {α β : Type} [DecidableEq α] (k : α) :
    mapGet ([] : List (α × β)) k = none := rfl

theorem mapGet_cons {α β : Type} [DecidableEq α] (a k : α) (b : β)
    (rest : List (α × β)) :
    mapGet ((a, b) :: rest) k = if a = k then some b else mapGet rest k := by
  by_cases h : a = k
  · simp [mapGet, List.find?, h]
  · simp [mapGet, List.find?, h]

theorem mapGet_mapSet {α β : Type} [DecidableEq α] (m : List (α × β))
    (k k' : α) (v : β) :
    mapGet (mapSet m k v) k' = if k' = k then some v else mapGet m k' := by
  induction m with
  | nil =>
    by_cases h : k' = k
    · simp [mapSet, mapGet_cons, h]
    · simp [mapSet, mapGet_cons, mapGet_nil, h, Ne.symm h]
  | cons kv rest ih =>
    obtain ⟨a, b⟩ := kv
    by_cases ha : a = k
    · by_cases h : k' = k
      · simp [mapSet, ha, mapGet_cons, h]
      · have hka : ¬ k = k' := fun hh => h hh.symm
        simp [mapSet, ha, mapGet_cons, h, hka]
    · by_cases h : k' = a
      · have hk : ¬ k' = k := fun hh => ha (h.symm.trans hh)
        simp [mapSet, ha, mapGet_cons, h.symm, hk]
      · have hak : ¬ a = k' := fun hh => h hh.symm
        simp [mapSet, ha, mapGet_cons, hak, ih]

theorem updateAnvilStatus_mem {db : List AnvilInstanceRow}
    {r : AnvilInstanceRow} {id : String} {status : Status} {t : Option Nat}
    (h : r ∈ updateAnvilStatus db id status t) (hid : r.id = id) :
    r.status = status ∧ r.stoppedAt = t := by
  unfold updateAnvilStatus at h
  rcases List.mem_map.mp h with ⟨r0, hr0, heq⟩
  by_cases h0 : r0.id = id
  · rw [if_pos h0] at heq
    rw [← heq]
    exact ⟨rfl, rfl⟩
  · rw [if_neg h0] at heq
    rw [← heq] at hid
    exact absurd hid h0

theorem stopAllGo_signals (now : Nat) (id : String) :
    ∀ (l : List (String × AnvilInstance)) (st : ManagerState)
      (sig : List String) (st' : ManagerState) (sig' : List String),
      stopAllGo now l st sig = Except.ok (st', sig') → id ∈ sig' →
      id ∈ sig ∨ ∃ inst : AnvilInstance, (id, inst) ∈ l ∧
        inst.hasProcess = true ∧ inst.status ≠ Status.orphaned := by
  intro l
  induction l with
  | nil =>
    intro st sig st' sig' h hmem
    simp only [stopAllGo] at h
    cases h
    exact Or.inl hmem
  | cons kv rest ih =>
    intro st sig st' sig' h hmem
    simp only [stopAllGo] at h
    by_cases hc : kv.2.hasProcess = true ∧ kv.2.status ≠ Status.orphaned
    · rw [if_pos hc] at h
      cases hstop : stop st kv.1 now with
      | ok pr =>
        rw [hstop] at h
        rcases ih pr.1 (sig ++ [kv.1]) st' sig' h hmem with hin | ⟨inst, hi, hp, hs⟩
        · rcases List.mem_append.mp hin with hin1 | hin2
          · exact Or.inl hin1
          · have : id = kv.1 := List.mem_singleton.mp hin2
            subst this
            exact Or.inr ⟨kv.2, List.mem_cons_self _ _, hc.1, hc.2⟩
        · exact Or.inr ⟨inst, List.mem_cons_of_mem _ hi, hp, hs⟩
      | error e =>
        rw [hstop] at h
        cases h
    · rw [if_neg hc] at h
      rcases ih st sig st' sig' h hmem with hin | ⟨inst, hi, hp, hs⟩
      · exact Or.inl hin
      · exact Or.inr ⟨inst, List.mem_cons_of_mem _ hi, hp, hs⟩

/-! Shared concrete oracles. -/

/-- A bind probe / liveness poll that always succeeds. -/
def alwaysTrue : Nat → Bool := fun _ => true

/-- A liveness poll that never succeeds within the timeout. -/
def neverTrue : Nat → Bool := fun _ => false

/-! Claim C1: port uniqueness among active instances. -/

/-- Options requesting the explicit port override `8545`. -/
def c1Opts : StartOptions := { port := some 8545 }

/-- First `start` call: explicit override port `8545`, node comes up. -/
def c1Run1 : ManagerState × Except AnvilErr AnvilInstance :=
  start (mkManager 8545 8555) 31337 ("inst-a") (some 11) c1Opts
    alwaysTrue alwaysTrue 100 0

/-- Second `start` call on the resulting state: the same override port. -/
def c1Run2 : ManagerState × Except AnvilErr AnvilInstance :=
  start c1Run1.1 31337 ("inst-b") (some 12) c1Opts alwaysTrue alwaysTrue 100 1

/-- Port and activity of an instance as registered in the manager. -/
def activePortOf (st : ManagerState) (id : String) : Option (Nat × Bool) :=
  (mapGet st.instances id).map (fun i => (i.port, i.status.isActive))

/-- C1: the claimed invariant — at most one active instance holds a given
port, also under an explicit port override — is violated by the code: two
successive `start` calls with the override `port: 8545` both succeed, and the
resulting supervisor state holds two distinct active (`running`) instances on
port 8545.  The override path never consults the `PortAllocator` (its
`reserve` method is dead code), and nothing rejects the duplicate. -/
theorem c1_two_active_instances_share_port :
    activePortOf c1Run2.1 ("inst-a") = some (8545, true) ∧
    activePortOf c1Run2.1 ("inst-b") = some (8545, true) ∧
    ("inst-a" : String) ≠ ("inst-b" : String) := by
  decide

/-! Claim C2: private-key redaction of captured process output. -/

/-- A chunk consisting of one private-key-shaped substring:
`0x` followed by 64 hex digits. -/
def sampleKeyChars : List Char := '0' :: 'x' :: List.replicate 64 'a'

/-- The same chunk as a string. -/
def sampleKey : String := String.mk sampleKeyChars

/-- C2: counterexample — a captured *stderr* chunk consisting of a
private-key-shaped string is surfaced to the log sink verbatim.  The chunk
does match the redaction pattern (the stdout handler would have replaced it
by `0x[REDACTED]`), yet the stderr handler's log line contains it
unredacted: the claim fails for the standard-error stream. -/
theorem c2_stderr_chunk_not_redacted :
    stderrLogLine ("node-1") sampleKey = ("[Anvil node-1] " ++ sampleKey) ∧
    redactChars sampleKeyChars ≠ sampleKeyChars ∧
    stdoutLogLine ("node-1") sampleKey = ("[Anvil node-1] 0x[REDACTED]") := by
  decide

/-! Claim C3: startup timeout leaves the record in `error`. -/

/-- A `start` call whose node never answers the liveness poll within the
timeout (here the port is an explicit override; the allocator path behaves
identically after port resolution). -/
def c3Run : ManagerState × Except AnvilErr AnvilInstance :=
  start (mkManager 8545 8555) 31337 ("inst-t") (some 21) { port := some 8546 }
    alwaysTrue neverTrue 100 0

/-- C3: when the liveness probe never succeeds within the bounded timeout,
`start` does raise the startup-timeout `AnvilError`, but the instance is left
in status `starting` — not `error` — both in the in-memory map and in the
persisted row.  No code path in the manager ever assigns the `error` status
declared by `AnvilInstance`. -/
theorem c3_timeout_leaves_starting_not_error :
    c3Run.2 = Except.error (AnvilErr.startupTimeout ("inst-t")) ∧
    (mapGet c3Run.1.instances ("inst-t")).map AnvilInstance.status
      = some Status.starting ∧
    c3Run.1.db.map AnvilInstanceRow.status = [Status.starting] := by
  decide

/-! Claim C4: the startup reconciler and `stopAll` afterwards. -/

/-- C4: during startup reconciliation every durable record whose status was
`running` is transitioned to `orphaned` with a termination timestamp
*unconditionally* — `reconcileRow` produces the same orphaned row whatever
the PID-liveness oracle reports — the reconciler signals no process and
leaves the in-memory map untouched, no `running` row survives, and
`stopAll` never signals an id all of whose in-memory instances are
`orphaned` (in particular, after a fresh-supervisor reconciliation it
signals nothing at all). -/
theorem c4_reconciler_orphans_unconditionally_and_stopAll_skips :
    (∀ (st : ManagerState) (alive : Nat → Bool) (now : Nat),
      (reconcileStartup st alive now).2 = [] ∧
      (reconcileStartup st alive now).1.instances = st.instances) ∧
    (∀ (alive : Nat → Bool) (now : Nat) (r : AnvilInstanceRow),
      r.status = Status.running →
      reconcileRow alive now r
        = { r with status := Status.orphaned, stoppedAt := some now }) ∧
    (∀ (st : ManagerState) (alive : Nat → Bool) (now : Nat)
       (r : AnvilInstanceRow), r ∈ (reconcileStartup st alive now).1.db →
      r.status ≠ Status.running) ∧
    (∀ (st : ManagerState) (now : Nat), st.instances = [] →
      stopAll st now = Except.ok (st, [])) ∧
    (∀ (st : ManagerState) (now : Nat) (id : String),
      (∀ inst : AnvilInstance, (id, inst) ∈ st.instances →
        inst.status = Status.orphaned) →
      ∀ (st' : ManagerState) (sig : List String),
        stopAll st now = Except.ok (st', sig) → id ∉ sig) := by
  refine ⟨?_, ?_, ?_, ?_, ?_⟩
  · intro st alive now
    exact ⟨rfl, rfl⟩
  · intro alive now r hr
    simp [reconcileRow]
  · intro st alive now r hr
    simp only [reconcileStartup] at hr
    rcases List.mem_map.mp hr with ⟨r0, hr0, heq⟩
    by_cases h0 : r0.status = Status.running
    · rw [if_pos h0] at heq
      rw [← heq]
      simp [reconcileRow]
    · rw [if_neg h0] at heq
      rw [← heq]
      exact h0
  · intro st now h
    simp only [stopAll, h, stopAllGo]
  · intro st now id horph st' sig h hmem
    rcases stopAllGo_signals now id st.instances st [] st' sig h hmem with
      hin | ⟨inst, hi, _, hs⟩
    · cases hin
    · exact hs (horph inst hi)

/-- A PID-liveness oracle reporting every PID alive — the reconciler must
orphan the record regardless. -/
def c4Alive : Nat → Bool := fun _ => true

/-- A durable row recorded as `running` by a previous supervisor run. -/
def c4Row : AnvilInstanceRow :=
  { id := "db-1", port := 8545, status := Status.running, forkedFrom := none
    chainId := some 31337, startedAt := 0, stoppedAt := none, pid := some 42 }

/-- An in-memory instance already marked `orphaned`. -/
def c4Orphan : AnvilInstance :=
  { id := "inst-o", port := 8546, status := Status.orphaned
    hasProcess := true, forkedFrom := none, chainId := 31337
    startedAt := 0, pid := some 43 }

/-- A manager holding the orphaned instance and the stale `running` row. -/
def c4St : ManagerState :=
  { instances := [(("inst-o" : String), c4Orphan)]
    alloc := mkPortAllocator 8545 8555
    db := [c4Row] }

/-- C4 witness: the general theorem applied at the concrete state — the
reconciler issues no signal, orphans the `running` row with timestamp even
though its PID reports alive, the reconciled store holds no `running` row,
a fresh supervisor's `stopAll` signals nothing, and the orphaned instance's
id is not signalled. -/
theorem c4_witness :
    (reconcileStartup c4St c4Alive 7).2 = [] ∧
    reconcileRow c4Alive 7 c4Row
      = { c4Row with status := Status.orphaned, stoppedAt := some 7 } ∧
    ({ c4Row with status := Status.orphaned, stoppedAt := some 7 }
      : AnvilInstanceRow).status ≠ Status.running ∧
    stopAll (mkManager 8545 8555) 3 = Except.ok (mkManager 8545 8555, []) ∧
    ("inst-o" : String) ∉ ([] : List String) := by
  refine ⟨(c4_reconciler_orphans_unconditionally_and_stopAll_skips.1 c4St c4Alive 7).1,
    c4_reconciler_orphans_unconditionally_and_stopAll_skips.2.1 c4Alive 7 c4Row rfl,
    c4_reconciler_orphans_unconditionally_and_stopAll_skips.2.2.1 c4St c4Alive 7
      ({ c4Row with status := Status.orphaned, stoppedAt := some 7 }) (by decide),
    c4_reconciler_orphans_unconditionally_and_stopAll_skips.2.2.2.1
      (mkManager 8545 8555) 3 rfl,
    c4_reconciler_orphans_unconditionally_and_stopAll_skips.2.2.2.2 c4St 3
      ("inst-o") ?_ c4St [] (by decide)⟩
  intro inst h
  have h2 := List.mem_singleton.mp h
  have h3 := congrArg Prod.snd h2
  simp only at h3
  rw [h3]
  rfl

/-! Claim C5: the asynchronous process-exit handler. -/

/-- C5: whenever the exit handler registered by `start` fires for an
instance present in the in-memory map, the instance's status becomes
`stopped`, the handler's captured port is back in the allocator's available
set, and every persisted row of that instance carries status `stopped` with
the termination timestamp — all without any `stop` call. -/
theorem c5_exit_handler_stops_releases_persists :
    ∀ (st : ManagerState) (id : String) (port now : Nat)
      (inst : AnvilInstance), mapGet st.instances id = some inst →
      mapGet (onProcessExit st id port now).instances id
        = some { inst with status := Status.stopped } ∧
      port ∈ (onProcessExit st id port now).alloc.available ∧
      (∀ r : AnvilInstanceRow, r ∈ (onProcessExit st id port now).db →
        r.id = id → r.status = Status.stopped ∧ r.stoppedAt = some now) := by
  intro st id port now inst h
  refine ⟨?_, ?_, ?_⟩
  · simp [onProcessExit, h, mapGet_mapSet]
  · show port ∈ setAdd st.alloc.available port
    exact setAdd_mem _ _
  · intro r hr hid
    exact updateAnvilStatus_mem hr hid

/-- A running instance owning port 8545. -/
def c5Inst : AnvilInstance :=
  { id := "i1", port := 8545, status := Status.running, hasProcess := true
    forkedFrom := none, chainId := 31337, startedAt := 2, pid := some 50 }

/-- A manager holding the running instance, its allocated port and its
persisted row. -/
def c5St : ManagerState :=
  { instances := [(("i1" : String), c5Inst)]
    alloc := { available := [8546], allocated := [8545] }
    db := [{ id := "i1", port := 8545, status := Status.running
             forkedFrom := none, chainId := some 31337, startedAt := 2
             stoppedAt := none, pid := some 50 }] }

/-- C5 witness: the theorem applied at the concrete state (the process of
`i1` exits; no one called `stop`). -/
theorem c5_witness :
    mapGet (onProcessExit c5St ("i1") 8545 9).instances ("i1")
      = some { c5Inst with status := Status.stopped } ∧
    8545 ∈ (onProcessExit c5St ("i1") 8545 9).alloc.available ∧
    ({ id := "i1", port := 8545, status := Status.stopped, forkedFrom := none
       chainId := some 31337, startedAt := 2, stoppedAt := some 9
       pid := some 50 } : AnvilInstanceRow).status = Status.stopped ∧
    ({ id := "i1", port := 8545, status := Status.stopped, forkedFrom := none
       chainId := some 31337, startedAt := 2, stoppedAt := some 9
       pid := some 50 } : AnvilInstanceRow).stoppedAt = some 9 := by
  have h := c5_exit_handler_stops_releases_persists c5St ("i1") 8545 9 c5Inst
    (by decide)
  have h3 := h.2.2
    ({ id := "i1", port := 8545, status := Status.stopped, forkedFrom := none
       chainId := some 31337, startedAt := 2, stoppedAt := some 9
       pid := some 50 }) (by decide) rfl
  exact ⟨h.1, h.2.1, h3.1, h3.2⟩

/-! Claim C6: scoping of impersonation tracking. -/

theorem setHas_setAdd_self {α : Type} [DecidableEq α] (s : List α) (x : α) :
    setHas (setAdd s x) x = true := by
  simp [setHas, setAdd_mem]

theorem setHas_eq_false {α : Type} [DecidableEq α] {s : List α} {x : α}
    (h : x ∉ s) : setHas s x = false := by
  simp [setHas, h]

/-- The effect of a start-impersonation call on the state, spelled out. -/
theorem impersonate_start_state (st : ImpersonationState) (rpc addr : String) :
    (impersonate st rpc addr false).1
      = { impersonatedAddresses :=
            setAdd st.impersonatedAddresses (lowercase addr)
          nodeImpersonated :=
            mapSet st.nodeImpersonated rpc
              (setAdd ((mapGet st.nodeImpersonated rpc).getD []) addr) } :=
  rfl

/-- The effect of a stop-impersonation call on the state, spelled out. -/
theorem impersonate_stop_state (st : ImpersonationState) (rpc addr : String) :
    (impersonate st rpc addr true).1
      = { impersonatedAddresses :=
            setDelete st.impersonatedAddresses (lowercase addr)
          nodeImpersonated :=
            mapSet st.nodeImpersonated rpc
              (setDelete ((mapGet st.nodeImpersonated rpc).getD []) addr) } :=
  rfl

/-- An address impersonated on two instances in the counterexample run. -/
def c6Addr : String := "0xAaAaAaAaAaAaAaAaAaAaAaAaAaAaAaAaAaAaAaAa"

/-- The RPC endpoint of the first node instance. -/
def c6Rpc1 : String := "http://127.0.0.1:8545"

/-- The RPC endpoint of the second node instance. -/
def c6Rpc2 : String := "http://127.0.0.1:8546"

/-- Fresh impersonation state: empty tracker, nothing impersonated. -/
def c6s0 : ImpersonationState :=
  { impersonatedAddresses := [], nodeImpersonated := [] }

/-- After impersonating the address on instance 1. -/
def c6s1 : ImpersonationState := (impersonate c6s0 c6Rpc1 c6Addr false).1

/-- After additionally impersonating the same address on instance 2. -/
def c6s2 : ImpersonationState := (impersonate c6s1 c6Rpc2 c6Addr false).1

/-- After stopping impersonation of the address on instance 1 only. -/
def c6s3 : ImpersonationState := (impersonate c6s2 c6Rpc1 c6Addr true).1

/-- C6 counterexample: impersonation tracking is *not* scoped per node
instance.  Impersonating the same address on two instances records a single
shared tracker entry, and stopping impersonation on instance 1 empties the
tracker entirely — the session on instance 2 is no longer recorded as
active, even though node 2 itself still impersonates the address. -/
theorem c6_stop_on_one_instance_clears_shared_record :
    c6s2.impersonatedAddresses = [lowercase c6Addr] ∧
    c6s3.impersonatedAddresses = ([] : List String) ∧
    nodeActive c6s3 c6Rpc2 c6Addr = true := by
  decide

/-- C6 amended: the `impersonatedAddresses` tracker is process-global and
keyed by the lowercased address alone.  Starting impersonation of an address
on two distinct instances records one shared entry (the second start changes
nothing), and stopping impersonation on either instance deletes the address
from the tracked active set entirely; only the node-side state — which the
stop call leaves untouched on the other instance — remains per-instance. -/
theorem c6_tracker_is_global_not_per_instance (st : ImpersonationState)
    (rpc1 rpc2 addr : String) (hnd : st.impersonatedAddresses.Nodup)
    (hne : rpc1 ≠ rpc2) :
    ((impersonate st rpc1 addr false).1.impersonatedAddresses
        = setAdd st.impersonatedAddresses (lowercase addr)) ∧
    ((impersonate (impersonate st rpc1 addr false).1 rpc2 addr
        false).1.impersonatedAddresses
      = (impersonate st rpc1 addr false).1.impersonatedAddresses) ∧
    lowercase addr ∉
      (impersonate (impersonate (impersonate st rpc1 addr false).1 rpc2 addr
        false).1 rpc1 addr true).1.impersonatedAddresses ∧
    nodeActive
        (impersonate (impersonate (impersonate st rpc1 addr false).1 rpc2
          addr false).1 rpc1 addr true).1 rpc2 addr
      = nodeActive
          (impersonate (impersonate st rpc1 addr false).1 rpc2 addr false).1
          rpc2 addr ∧
    nodeActive (impersonate (impersonate st rpc1 addr false).1 rpc2 addr
        false).1 rpc2 addr = true := by
  refine ⟨rfl, setAdd_idem _ _, ?_, ?_, ?_⟩
  · exact setDelete_not_mem (setAdd_nodup (setAdd_nodup hnd _) _) _
  · show setHas ((mapGet (mapSet
      (impersonate (impersonate st rpc1 addr false).1 rpc2 addr
        false).1.nodeImpersonated rpc1 _) rpc2).getD []) addr = _
    rw [mapGet_mapSet, if_neg (Ne.symm hne)]
    rfl
  · show setHas ((mapGet (mapSet
      (impersonate st rpc1 addr false).1.nodeImpersonated rpc2 _)
        rpc2).getD []) addr = true
    rw [mapGet_mapSet, if_pos rfl]
    exact setHas_setAdd_self _ _

/-- C6 amended witness: the amended theorem applied to the concrete
two-instance run of the counterexample. -/
theorem c6_tracker_global_witness :
    (c6s1.impersonatedAddresses
        = setAdd c6s0.impersonatedAddresses (lowercase c6Addr)) ∧
    (c6s2.impersonatedAddresses = c6s1.impersonatedAddresses) ∧
    lowercase c6Addr ∉ c6s3.impersonatedAddresses ∧
    nodeActive c6s3 c6Rpc2 c6Addr = nodeActive c6s2 c6Rpc2 c6Addr ∧
    nodeActive c6s2 c6Rpc2 c6Addr = true :=
  c6_tracker_is_global_not_per_instance c6s0 c6Rpc1 c6Rpc2 c6Addr
    List.nodup_nil (by decide)

/-! Claim C7: snapshot name uniqueness on capture. -/

/-- C7: `createSnapshot` with a name already present in the registry fails
with the duplicate-name error (the error return carries no registry — nothing
is recorded or renamed); with a name not present it succeeds, and the
returned record is retrievable from the new registry both under the name and
under the node-issued token. -/
theorem c7_duplicate_name_fails_fresh_name_recorded :
    (∀ (st : SnapshotRegistry) (n tok bh : String) (bn ts cr : Nat),
      (mapGet st.snapshots n).isSome = true →
      createSnapshot st (some n) tok bn bh ts cr
        = Except.error (ExecErr.duplicateName n)) ∧
    (∀ (st : SnapshotRegistry) (n tok bh : String) (bn ts cr : Nat)
       (st' : SnapshotRegistry) (snap : SnapshotMetadata),
      mapGet st.snapshots n = none →
      createSnapshot st (some n) tok bn bh ts cr = Except.ok (st', snap) →
      mapGet st'.snapshots n = some snap ∧
      mapGet st'.snapshots tok = some snap) := by
  constructor
  · intro st n tok bh bn ts cr h
    simp [createSnapshot, h]
  · intro st n tok bh bn ts cr st' snap hnone heq
    simp only [createSnapshot, hnone, Option.isSome_none, Bool.false_eq_true,
      if_false, Except.ok.injEq, Prod.mk.injEq] at heq
    obtain ⟨hst, hsnap⟩ := heq
    rw [← hst, ← hsnap]
    constructor
    · rw [mapGet_mapSet]
      by_cases h2 : n = tok
      · rw [if_pos h2]
      · rw [if_neg h2, mapGet_mapSet, if_pos rfl]
    · rw [mapGet_mapSet, if_pos rfl]

/-- A snapshot named `clean` already captured under token `0x1`. -/
def c7Snap : SnapshotMetadata :=
  { snapshotId := "0x1", name := some "clean", blockNumber := 5
    blockHash := "0xabc", timestamp := 1000, created := 2000 }

/-- The registry after that first capture: entries under the name and the
token. -/
def c7St : SnapshotRegistry :=
  { snapshots := [(("clean" : String), c7Snap), (("0x1" : String), c7Snap)]
    consumedSnapshots := [] }

/-- The record a capture named `clean-2` with token `0xb` produces. -/
def c7NewSnap : SnapshotMetadata :=
  { snapshotId := "0xb", name := some "clean-2", blockNumber := 6
    blockHash := "0xdef", timestamp := 1100, created := 2100 }

/-- The registry after the `clean-2` capture. -/
def c7After : SnapshotRegistry :=
  { c7St with
    snapshots :=
      mapSet (mapSet c7St.snapshots ("clean-2") c7NewSnap) ("0xb") c7NewSnap }

/-- C7 witness: capturing a second snapshot also named `clean` fails with
the duplicate-name error; capturing `clean-2` afterwards succeeds and is
recorded under both its name and its token. -/
theorem c7_witness :
    createSnapshot c7St (some ("clean")) ("0xb") 6 ("0xdef") 1100 2100
      = Except.error (ExecErr.duplicateName ("clean")) ∧
    mapGet c7After.snapshots ("clean-2") = some c7NewSnap ∧
    mapGet c7After.snapshots ("0xb") = some c7NewSnap := by
  refine ⟨c7_duplicate_name_fails_fresh_name_recorded.1 c7St ("clean") ("0xb")
    ("0xdef") 6 1100 2100 (by decide), ?_, ?_⟩
  all_goals
    have h := c7_duplicate_name_fails_fresh_name_recorded.2 c7St ("clean-2")
      ("0xb") ("0xdef") 6 1100 2100 c7After c7NewSnap (by decide) (by decide)
  · exact h.1
  · exact h.2

/-! Claim C8: revert resolution, `NotFound`, and consumption warnings. -/

/-- C8: `revertSnapshot` fails with the not-found error when the input
resolves to no registry entry (neither as a name nor as a raw token);
when the input resolves and the token is already marked consumed the call
still succeeds, carrying the possibly-invalidated warning; and a
fresh (unconsumed) snapshot can be reverted twice — the first call succeeds
without the warning and marks the token consumed, the second succeeds with
the warning. -/
theorem c8_revert_notfound_and_consumed_warning :
    (∀ (st : SnapshotRegistry) (input bh : String) (r : Bool) (bn ts : Nat),
      mapGet st.snapshots input = none →
      revertSnapshot st input r bn bh ts
        = Except.error (ExecErr.snapshotNotFound input)) ∧
    (∀ (st : SnapshotRegistry) (input bh : String) (r : Bool) (bn ts : Nat),
      (mapGet st.snapshots (resolveSnapshotId st input)).isSome = true →
      setHas st.consumedSnapshots (resolveSnapshotId st input) = true →
      revertSnapshot st input r bn bh ts
        = Except.ok
            ({ st with
                consumedSnapshots :=
                  setAdd st.consumedSnapshots (resolveSnapshotId st input) },
             { snapshotId := resolveSnapshotId st input
               possiblyInvalidated := true, reverted := r
               blockNumber := bn, blockHash := bh, timestamp := ts })) ∧
    (∀ (st : SnapshotRegistry) (input bh1 bh2 : String) (r1 r2 : Bool)
       (bn1 ts1 bn2 ts2 : Nat),
      (mapGet st.snapshots (resolveSnapshotId st input)).isSome = true →
      setHas st.consumedSnapshots (resolveSnapshotId st input) = false →
      revertSnapshot st input r1 bn1 bh1 ts1
        = Except.ok
            ({ st with
                consumedSnapshots :=
                  setAdd st.consumedSnapshots (resolveSnapshotId st input) },
             { snapshotId := resolveSnapshotId st input
               possiblyInvalidated := false, reverted := r1
               blockNumber := bn1, blockHash := bh1, timestamp := ts1 }) ∧
      revertSnapshot
          { st with
            consumedSnapshots :=
              setAdd st.consumedSnapshots (resolveSnapshotId st input) }
          input r2 bn2 bh2 ts2
        = Except.ok
            ({ st with
                consumedSnapshots :=
                  setAdd (setAdd st.consumedSnapshots
                    (resolveSnapshotId st input)) (resolveSnapshotId st input) },
             { snapshotId := resolveSnapshotId st input
               possiblyInvalidated := true, reverted := r2
               blockNumber := bn2, blockHash := bh2, timestamp := ts2 })) := by
  refine ⟨?_, ?_, ?_⟩
  · intro st input bh r bn ts h
    simp [revertSnapshot, resolveSnapshotId, h]
  · intro st input bh r bn ts h1 h2
    obtain ⟨v, hv⟩ := Option.isSome_iff_exists.mp h1
    simp [revertSnapshot, hv, h2]
  · intro st input bh1 bh2 r1 r2 bn1 ts1 bn2 ts2 h1 h2
    obtain ⟨v, hv⟩ := Option.isSome_iff_exists.mp h1
    constructor
    · simp [revertSnapshot, hv, h2]
    · have hres : resolveSnapshotId
          { st with
            consumedSnapshots :=
              setAdd st.consumedSnapshots (resolveSnapshotId st input) }
          input = resolveSnapshotId st input := rfl
      simp [revertSnapshot, hres, hv, setHas_setAdd_self]

/-- The snapshot named `clean` under token `0x1` for the revert scenario. -/
def c8Snap : SnapshotMetadata :=
  { snapshotId := "0x1", name := some "clean", blockNumber := 5
    blockHash := "0xabc", timestamp := 1000, created := 2000 }

/-- A registry holding that snapshot, nothing consumed yet. -/
def c8St : SnapshotRegistry :=
  { snapshots := [(("clean" : String), c8Snap), (("0x1" : String), c8Snap)]
    consumedSnapshots := [] }

/-- C8 witness: reverting the unknown id `nope` fails with the not-found
error; reverting `clean` twice succeeds both times, the first call without
and the second call with the possibly-invalidated warning. -/
theorem c8_witness :
    revertSnapshot c8St ("nope") true 5 ("0xabc") 1000
      = Except.error (ExecErr.snapshotNotFound ("nope")) ∧
    revertSnapshot c8St ("clean") true 5 ("0xabc") 1000
      = Except.ok
          ({ c8St with
              consumedSnapshots :=
                setAdd c8St.consumedSnapshots
                  (resolveSnapshotId c8St ("clean")) },
           { snapshotId := resolveSnapshotId c8St ("clean")
             possiblyInvalidated := false, reverted := true
             blockNumber := 5, blockHash := "0xabc", timestamp := 1000 }) ∧
    revertSnapshot
        { c8St with
          consumedSnapshots :=
            setAdd c8St.consumedSnapshots (resolveSnapshotId c8St ("clean")) }
        ("clean") true 5 ("0xabc") 1001
      = Except.ok
          ({ c8St with
              consumedSnapshots :=
                setAdd (setAdd c8St.consumedSnapshots
                  (resolveSnapshotId c8St ("clean")))
                  (resolveSnapshotId c8St ("clean")) },
           { snapshotId := resolveSnapshotId c8St ("clean")
             possiblyInvalidated := true, reverted := true
             blockNumber := 5, blockHash := "0xabc", timestamp := 1001 }) := by
  refine ⟨c8_revert_notfound_and_consumed_warning.1 c8St ("nope") ("0xabc")
    true 5 1000 (by decide), ?_, ?_⟩
  all_goals
    have h := c8_revert_notfound_and_consumed_warning.2.2 c8St ("clean")
      ("0xabc") ("0xabc") true true 5 1000 5 1001 (by decide) (by decide)
  · exact h.1
  · exact h.2

/-! Claim C9: unconditional release and out-of-range reuse. -/

/-- The bind probe for the out-of-range scenario: ports 8545 and 8546 are
held by other processes, 9000 is free. -/
def c9Probe : Nat → Bool := fun p => p == 9000

/-- A two-port allocator whose exit handler just released the out-of-range
port 9000 (an explicit `start` override released on process exit). -/
def c9Base : PortAllocator := (mkPortAllocator 8545 8546).release 9000

/-- C9: `release p` unconditionally removes `p` from the allocated set and
puts `p` in the available set — no check that `p` was ever handed out or
lies inside the configured range — and releasing twice equals releasing
once; concretely, releasing 9000 into a `[8545, 8546]` allocator appends it
to the available scan order, after which `allocate` can return 9000, a port
outside the configured range. -/
theorem c9_release_unconditional_idempotent_out_of_range :
    (∀ (a : PortAllocator) (p : Nat), a.allocated.Nodup →
      p ∉ (a.release p).allocated ∧ p ∈ (a.release p).available ∧
      (a.release p).release p = a.release p) ∧
    ((mkPortAllocator 8545 8546).allocated = [] ∧
     c9Base.available = [8545, 8546, 9000] ∧
     (c9Base.allocate c9Probe).1 = some 9000 ∧
     ¬(8545 ≤ 9000 ∧ 9000 ≤ 8546)) := by
  constructor
  · intro a p hnd
    refine ⟨setDelete_not_mem hnd p, setAdd_mem _ _, ?_⟩
    show { available := setAdd (setAdd a.available p) p
           allocated := setDelete (setDelete a.allocated p) p }
      = PortAllocator.release a p
    rw [setAdd_idem, setDelete_of_not_mem (setDelete_not_mem hnd p)]
    rfl
  · decide

/-- An allocator with port 8545 handed out and 8546 still free. -/
def c9A : PortAllocator := { available := [8546], allocated := [8545] }

/-- C9 witness: the universally quantified part applied to the concrete
allocator — releasing 8545 removes it from `allocated`, adds it to
`available`, and is idempotent. -/
theorem c9_witness :
    8545 ∉ (c9A.release 8545).allocated ∧
    8545 ∈ (c9A.release 8545).available ∧
    (c9A.release 8545).release 8545 = c9A.release 8545 :=
  c9_release_unconditional_idempotent_out_of_range.1 c9A 8545 (by decide)

/-! Claim C10: `sendTx` impersonation bypasses the tracker. -/

/-- C10: a `sendTx` with `from` and no `privateKey` (against an Anvil node)
issues exactly a node-side impersonate-then-stop pair for `from`, leaves the
`impersonatedAddresses` tracker untouched (so an address previously recorded
active by the `impersonate` tool is still recorded active afterwards), and
leaves the node no longer impersonating `from`. -/
theorem c10_sendTx_impersonation_bypasses_tracker :
    ∀ (st : ImpersonationState) (rpc a : String),
      ((mapGet st.nodeImpersonated rpc).getD []).Nodup →
      (sendTxImpersonation st rpc (some a) none).2
        = [NodeAction.impersonateAccount rpc a,
           NodeAction.stopImpersonatingAccount rpc a] ∧
      (sendTxImpersonation st rpc (some a) none).1.impersonatedAddresses
        = st.impersonatedAddresses ∧
      nodeActive (sendTxImpersonation st rpc (some a) none).1 rpc a = false ∧
      (lowercase a ∈ st.impersonatedAddresses →
        lowercase a ∈
          (sendTxImpersonation st rpc (some a) none).1.impersonatedAddresses) := by
  intro st rpc a hnd
  have h1 : mapGet (nodeStart st rpc a).nodeImpersonated rpc
      = some (setAdd ((mapGet st.nodeImpersonated rpc).getD []) a) := by
    show mapGet (mapSet st.nodeImpersonated rpc _) rpc = _
    rw [mapGet_mapSet, if_pos rfl]
  refine ⟨rfl, rfl, ?_, fun h => h⟩
  show setHas ((mapGet (mapSet (nodeStart st rpc a).nodeImpersonated rpc
    (setDelete ((mapGet (nodeStart st rpc a).nodeImpersonated rpc).getD [])
      a)) rpc).getD []) a = false
  rw [mapGet_mapSet, if_pos rfl, h1]
  show setHas (setDelete (setAdd ((mapGet st.nodeImpersonated rpc).getD [])
    a) a) a = false
  exact setHas_eq_false (setDelete_not_mem (setAdd_nodup hnd a) a)

/-- An address whose impersonation session was started by the `impersonate`
tool before the `sendTx` call. -/
def c10Addr : String := "0xBbBbBbBbBbBbBbBbBbBbBbBbBbBbBbBbBbBbBbBb"

/-- The node RPC endpoint `sendTx` targets. -/
def c10Rpc : String := "http://127.0.0.1:8545"

/-- The impersonation state right after that `impersonate` call: the tracker
lists the lowercased address, the node impersonates it. -/
def c10St : ImpersonationState :=
  { impersonatedAddresses := [lowercase c10Addr]
    nodeImpersonated := [((c10Rpc : String), [c10Addr])] }

/-- C10 witness: the theorem applied to the concrete post-`impersonate`
state — `sendTx` issues the start/stop pair, the tracker still lists the
address as active, and the node no longer impersonates it. -/
theorem c10_witness :
    (sendTxImpersonation c10St c10Rpc (some c10Addr) none).2
      = [NodeAction.impersonateAccount c10Rpc c10Addr,
         NodeAction.stopImpersonatingAccount c10Rpc c10Addr] ∧
    (sendTxImpersonation c10St c10Rpc (some c10Addr) none).1.impersonatedAddresses
      = c10St.impersonatedAddresses ∧
    nodeActive (sendTxImpersonation c10St c10Rpc (some c10Addr) none).1
      c10Rpc c10Addr = false ∧
    lowercase c10Addr ∈
      (sendTxImpersonation c10St c10Rpc (some c10Addr)
        none).1.impersonatedAddresses := by
  have h := c10_sendTx_impersonation_bypasses_tracker c10St c10Rpc c10Addr
    (by decide)
  exact ⟨h.1, h.2.1, h.2.2.1, h.2.2.2 (by decide)⟩

end AnvilTools
